import Mathlib

/-!
Shallow embedding of the multi-factor authentication and device-trust engine
of the Lulu_Spendlyzer backend (FastAPI + SQLAlchemy), and proofs about it.

Conventions of the embedding:
* database tables become Lean lists of records; `scalars().first()` becomes
  `List.find?`; an in-place ORM mutation followed by `commit` becomes a
  functional update of the list;
* timestamps (`datetime`) become natural numbers (seconds);
* SHA-256 (`hashlib.sha256(.).hexdigest()`) is kept abstract: every
  definition that hashes is parametrised by `sha : String → String`;
* `HTTPException(status_code, detail)` becomes an `HttpError` value;
* the TOTP generator of `pyotp` for a fixed secret is kept abstract as a
  function from the time counter to the code string.
-/

namespace Spendlyzer

/-- Image of a FastAPI `HTTPException`: status code plus detail message. -/
structure HttpError where
  status : Nat
  detail : String
deriving Repr, DecidableEq

/-- Reason strings passed to `TrustedDeviceService._deactivate_device`. -/
inductive DeactivationReason where
  | expired
  | fingerprint_mismatch
  | geographic_restriction
  | user_revoked
  | bulk_revoke
  | device_limit_exceeded
deriving Repr, DecidableEq

/-- Row of the `trusted_devices` table (app/models/trusted_device.py). -/
structure TrustedDevice where
  id : Nat
  user_id : Nat
  device_hash : String
  token_hash : String
  device_name : String
  user_agent : String
  ip_address : String
  location : String
  country_code : String
  is_active : Bool
  expires_at : Nat
  last_used_at : Nat
deriving Repr, DecidableEq

/-- Device information extracted from a request by
`DeviceFingerprint.extract_device_info_from_request`. -/
structure DeviceInfo where
  user_agent : String
  ip_address : String
  device_hash : String
  device_name : String
  country_code : String
  location : String
deriving Repr, DecidableEq

/-- Expiry check `TrustedDevice.is_expired`: `datetime.now() > self.expires_at`. -/
def TrustedDevice.is_expired (d : TrustedDevice) (now : Nat) : Bool :=
  now > d.expires_at

/-- Fingerprint check `DeviceFingerprint.validate_device_fingerprint`:
exact equality of the stored and current hashes. -/
def validate_device_fingerprint (stored_hash current_hash : String) : Bool :=
  stored_hash == current_hash

/-- Geographic check `TrustedDeviceService._validate_geographic_access`:
the sentinel "XX" on either side passes, otherwise exact equality. -/
def validate_geographic_access (d : TrustedDevice) (info : DeviceInfo) : Bool :=
  if d.country_code == "XX" || info.country_code == "XX" then true
  else d.country_code == info.country_code

/-- Lookup performed by `verify_trusted_device`: first row with the given
user id, token hash, and `is_active = True`. -/
def findActiveByToken (db : List TrustedDevice) (uid : Nat) (th : String) :
    Option TrustedDevice :=
  db.find? (fun d => d.user_id == uid && d.token_hash == th && d.is_active)

/-- Update performed by `TrustedDeviceService._deactivate_device`: the row
with the given id gets `is_active = False`. -/
def deactivateDevice (db : List TrustedDevice) (device_id : Nat) :
    List TrustedDevice :=
  db.map (fun d => if d.id == device_id then { d with is_active := false } else d)

/-- Update of `last_used_at` performed at the end of a successful
`verify_trusted_device`. -/
def touchDevice (db : List TrustedDevice) (device_id : Nat) (now : Nat) :
    List TrustedDevice :=
  db.map (fun d => if d.id == device_id then { d with last_used_at := now } else d)

/-- Result of `verify_trusted_device`: the returned optional record, the
new table state, and the deactivation audit events emitted. -/
structure VerifyDeviceResult where
  device : Option TrustedDevice
  db : List TrustedDevice
  audit : List (Nat × DeactivationReason)
deriving Repr, DecidableEq

/-- Embedding of `TrustedDeviceService.verify_trusted_device`
(app/services/trusted_device_service.py lines 111-189). -/
def verify_trusted_device (sha : String → String) (db : List TrustedDevice)
    (token : String) (info : DeviceInfo) (uid : Nat) (now : Nat) :
    VerifyDeviceResult :=
  let token_hash := sha token
  match findActiveByToken db uid token_hash with
  | none => ⟨none, db, []⟩
  | some d =>
    if d.is_expired now then
      ⟨none, deactivateDevice db d.id, [(d.id, .expired)]⟩
    else if !validate_device_fingerprint d.device_hash info.device_hash then
      ⟨none, deactivateDevice db d.id, [(d.id, .fingerprint_mismatch)]⟩
    else if !validate_geographic_access d info then
      ⟨none, deactivateDevice db d.id, [(d.id, .geographic_restriction)]⟩
    else
      ⟨some { d with last_used_at := now }, touchDevice db d.id now, []⟩

/-- Active devices of a user, as selected by `_enforce_device_limit` and
`get_user_trusted_devices`. -/
def activeDevices (db : List TrustedDevice) (uid : Nat) : List TrustedDevice :=
  db.filter (fun d => d.user_id == uid && d.is_active)

/-- Python `min(devices, key=lambda d: d.last_used_at)`: the first element
attaining the minimal `last_used_at`. -/
def minByLastUsed : List TrustedDevice → Option TrustedDevice
  | [] => none
  | d :: ds =>
    match minByLastUsed ds with
    | none => some d
    | some m => if d.last_used_at ≤ m.last_used_at then some d else some m

/-- Embedding of `TrustedDeviceService._enforce_device_limit` with
`max_devices_per_user = 5`: at or above the cap, deactivate the
least-recently-used active device. -/
def enforce_device_limit (db : List TrustedDevice) (uid : Nat) :
    List TrustedDevice :=
  let act := activeDevices db uid
  if act.length ≥ 5 then
    match minByLastUsed act with
    | some oldest => deactivateDevice db oldest.id
    | none => db
  else db

/-- Embedding of `TrustedDeviceService._cleanup_expired_devices`: deactivate
every active device of the user with `expires_at < now`. -/
def cleanup_expired_devices (db : List TrustedDevice) (uid : Nat) (now : Nat) :
    List TrustedDevice :=
  let expired := db.filter
    (fun d => d.user_id == uid && d.is_active && decide (d.expires_at < now))
  expired.foldl (fun acc d => deactivateDevice acc d.id) db

/-- Embedding of `TrustedDeviceService.save_trusted_device`: enforce the
device cap, clean up expired devices, then insert the new row. -/
def save_trusted_device (db : List TrustedDevice) (dev : TrustedDevice)
    (now : Nat) : List TrustedDevice :=
  cleanup_expired_devices (enforce_device_limit db dev.user_id) dev.user_id now
    ++ [dev]

/-- Row of the `users` table, restricted to the columns the engine reads
(app/models/user.py). -/
structure User where
  id : Nat
  username : String
  email : String
  password_hash : String
  token_version : Nat
deriving Repr, DecidableEq

/-- Lookup of `signin`: first user whose username or email equals the login. -/
def findByLogin (users : List User) (login : String) : Option User :=
  users.find? (fun u => u.username == login || u.email == login)

/-- Error raised by `signin` on a failed primary check
(app/routes/auth.py line 295). -/
def invalidCredentialsError : HttpError := ⟨401, "Invalid credentials"⟩

/-- Embedding of the primary-credential part of `POST /auth/signin`
(app/routes/auth.py lines 284-295): look the user up by username or email
and verify the password against the stored bcrypt hash.  The bcrypt check
`verify_password` is kept abstract as `verifyPw plain hashed`. -/
def signinPrimary (verifyPw : String → String → Bool) (users : List User)
    (login password : String) : Except HttpError User :=
  match findByLogin users login with
  | none => .error invalidCredentialsError
  | some u =>
    if verifyPw password u.password_hash then .ok u
    else .error invalidCredentialsError

/-- Row of the `two_factor_backup_codes` table
(app/models/two_factor_auth.py). -/
structure BackupCode where
  id : Nat
  user_id : Nat
  code_hash : String
  is_used : Bool
  used_at : Option Nat
deriving Repr, DecidableEq

/-- Lookup used by the backup-code fallback: first row of the user with the
given hash and `is_used = False`. -/
def findUnusedBackup (codes : List BackupCode) (uid : Nat) (h : String) :
    Option BackupCode :=
  codes.find? (fun c => c.user_id == uid && c.code_hash == h && !c.is_used)

/-- Update performed when a backup code is consumed: set `is_used = True`
and `used_at = now` on the row with the given id. -/
def markBackupUsed (codes : List BackupCode) (code_id : Nat) (now : Nat) :
    List BackupCode :=
  codes.map (fun c =>
    if c.id == code_id then { c with is_used := true, used_at := some now }
    else c)

/-!
Interleaving model of the backup-code consumption race.  The source
performs a read-then-write: it first SELECTs an unused row matching the
code hash, and only afterwards — with no conditional guard — sets
`is_used = True` and reports success.  Each in-flight request is therefore
a two-step program; a scheduler interleaves the steps of several requests
over the shared table.
-/

/-- Phase of one in-flight backup-code verification request. -/
inductive ReqPhase where
  | toRead
  | toWrite (found : Option Nat)
  | finished (ok : Bool)
deriving Repr, DecidableEq

/-- Shared state of the race model: the backup-code table plus the phase of
each request. -/
structure RaceState where
  codes : List BackupCode
  reqs : List ReqPhase
deriving Repr, DecidableEq

/-- Replace the i-th element of a list, leaving the rest unchanged. -/
def setAt {α : Type} : List α → Nat → α → List α
  | [], _, _ => []
  | _ :: xs, 0, a => a :: xs
  | x :: xs, n + 1, a => x :: setAt xs n a

/-- One scheduler step: advance request `i` by one phase.  The read phase
runs the SELECT of the source (`findUnusedBackup`) and records the id it
found; the write phase unconditionally marks that id used and reports
success, exactly as the source does after a non-empty SELECT. -/
def raceStep (uid : Nat) (h : String) (now : Nat) (s : RaceState) (i : Nat) :
    RaceState :=
  match s.reqs.get? i with
  | none => s
  | some .toRead =>
    let found := (findUnusedBackup s.codes uid h).map (·.id)
    { s with reqs := setAt s.reqs i (.toWrite found) }
  | some (.toWrite none) =>
    { s with reqs := setAt s.reqs i (.finished false) }
  | some (.toWrite (some cid)) =>
    { codes := markBackupUsed s.codes cid now
      reqs := setAt s.reqs i (.finished true) }
  | some (.finished _) => s

/-- Run a schedule (a list of request indices) over the race model. -/
def runSchedule (uid : Nat) (h : String) (now : Nat) (s : RaceState) :
    List Nat → RaceState
  | [] => s
  | i :: rest => runSchedule uid h now (raceStep uid h now s i) rest

/-- Number of requests that finished successfully. -/
def successCount (s : RaceState) : Nat :=
  (s.reqs.filter (fun r => r == .finished true)).length

/-- Row of the `two_factor_auth` table (app/models/two_factor_auth.py). -/
structure TwoFactorAuthRec where
  user_id : Nat
  is_enabled : Bool
  method : String
  secret_key : Option String
  phone_number : Option String
  temp_code : Option String
  temp_code_expires_at : Option Nat
deriving Repr, DecidableEq

/-- Clearing of the temporary code: `temp_code = None`,
`temp_code_expires_at = None`. -/
def clearTempCode (tf : TwoFactorAuthRec) : TwoFactorAuthRec :=
  { tf with temp_code := none, temp_code_expires_at := none }

/-- Storing of a freshly generated code by `send_two_factor_code`
(app/routes/two_factor_auth.py lines 444-454): the code is kept with an
expiry of 10 minutes (600 seconds) from now. -/
def storeTempCode (tf : TwoFactorAuthRec) (code : String) (now : Nat) :
    TwoFactorAuthRec :=
  { tf with temp_code := some code, temp_code_expires_at := some (now + 600) }

/-- Time counter of RFC 6238 with the default 30-second interval, as
computed by `pyotp.TOTP.timecode`: the floor of `now / 30`. -/
def timecode (now : Nat) : Nat := now / 30

/-- Embedding of `pyotp.TOTP(secret).verify(code, valid_window=window)` for
a 30-second interval: the code is compared against the generator's output
at every counter within `window` steps of `timecode now`.  The per-secret
code generator `gen` is kept abstract. -/
def totpVerify (gen : Int → String) (code : String) (now : Nat)
    (window : Nat) : Bool :=
  (List.range (2 * window + 1)).any (fun k =>
    code == gen (((timecode now : Nat) : Int) + (k : Int) - (window : Int)))

instance {ε α : Type} [DecidableEq ε] [DecidableEq α] :
    DecidableEq (Except ε α) := fun x y =>
  match x, y with
  | .ok a, .ok b =>
    if h : a = b then isTrue (by rw [h])
    else isFalse (by intro hh; cases hh; exact h rfl)
  | .error a, .error b =>
    if h : a = b then isTrue (by rw [h])
    else isFalse (by intro hh; cases hh; exact h rfl)
  | .ok _, .error _ => isFalse (by intro hh; cases hh)
  | .error _, .ok _ => isFalse (by intro hh; cases hh)

/-- Outcome of an endpoint that may consume the temporary code or a backup
code: the HTTP result plus the final states of the `two_factor_auth` row
and the backup-code table. -/
structure TwoFactorOutcome where
  result : Except HttpError Unit
  tf : Option TwoFactorAuthRec
  codes : List BackupCode
deriving Repr, DecidableEq

/-- Shared suffix of both verification endpoints: on a failed primary
check, fall back to the user's unused backup codes (marking a hit used);
raise `Invalid verification code` if everything failed. -/
def finishCodeVerify (sha : String → String) (valid : Bool)
    (tf : TwoFactorAuthRec) (codes : List BackupCode) (uid : Nat)
    (code : String) (now : Nat) : TwoFactorOutcome :=
  if valid then ⟨.ok (), some tf, codes⟩
  else
    match findUnusedBackup codes uid (sha code) with
    | some c => ⟨.ok (), some tf, markBackupUsed codes c.id now⟩
    | none => ⟨.error ⟨400, "Invalid verification code"⟩, some tf, codes⟩

/-- Embedding of the code-verification core of `POST /auth/verify-2fa`
(app/routes/auth.py lines 431-492).  `tf?` is the result of the lookup
`SELECT ... WHERE user_id = uid AND is_enabled`; `now` is both the TOTP
verification time and `datetime.utcnow()` for the expiry check.  On the
sms/email path the stored code is cleared whether or not it matched. -/
def verify2faLogin (gen : String → Int → String) (sha : String → String)
    (tf? : Option TwoFactorAuthRec) (codes : List BackupCode) (uid : Nat)
    (code : String) (now : Nat) : TwoFactorOutcome :=
  match tf? with
  | none =>
    ⟨.error ⟨400, "Two-factor authentication is not enabled"⟩, none, codes⟩
  | some tf =>
    if tf.method == "authenticator" then
      match tf.secret_key with
      | none => ⟨.error ⟨500, "No secret key found"⟩, some tf, codes⟩
      | some s =>
        finishCodeVerify sha (totpVerify (gen s) code now 1) tf codes uid code now
    else if tf.method == "sms" || tf.method == "email" then
      match tf.temp_code, tf.temp_code_expires_at with
      | some tc, some exp =>
        let valid := if now > exp then false else tc == code
        finishCodeVerify sha valid (clearTempCode tf) codes uid code now
      | _, _ => finishCodeVerify sha false tf codes uid code now
    else finishCodeVerify sha false tf codes uid code now

/-- Embedding of `POST /2fa/verify` (`verify_two_factor`,
app/routes/two_factor_auth.py lines 254-326).  Unlike the login path, the
sms/email branch requires a strict `now < temp_code_expires_at` and clears
the stored code only when the primary check succeeded. -/
def verifyTwoFactorEndpoint (gen : String → Int → String)
    (sha : String → String) (tf? : Option TwoFactorAuthRec)
    (codes : List BackupCode) (uid : Nat) (code : String) (now : Nat) :
    TwoFactorOutcome :=
  match tf? with
  | none =>
    ⟨.error ⟨400, "Two-factor authentication is not enabled"⟩, none, codes⟩
  | some tf =>
    if !tf.is_enabled then
      ⟨.error ⟨400, "Two-factor authentication is not enabled"⟩, some tf, codes⟩
    else if tf.method == "authenticator" then
      match tf.secret_key with
      | none => ⟨.error ⟨500, "No secret key found"⟩, some tf, codes⟩
      | some s =>
        finishCodeVerify sha (totpVerify (gen s) code now 1) tf codes uid code now
    else if tf.method == "sms" || tf.method == "email" then
      let hit : Bool :=
        match tf.temp_code, tf.temp_code_expires_at with
        | some tc, some exp => tc == code && now < exp
        | _, _ => false
      if hit then
        finishCodeVerify sha true (clearTempCode tf) codes uid code now
      else
        finishCodeVerify sha false tf codes uid code now
    else finishCodeVerify sha false tf codes uid code now

/-- Embedding of `POST /2fa/verify-setup` (`verify_setup_code`,
app/routes/two_factor_auth.py lines 612-646): a distinct expiry error, and
the code is cleared only on success. -/
def verifySetupCode (tf? : Option TwoFactorAuthRec) (code : String)
    (now : Nat) : Except HttpError TwoFactorAuthRec :=
  match tf? with
  | none =>
    .error ⟨400, "No verification code found. Please request a new one."⟩
  | some tf =>
    match tf.temp_code, tf.temp_code_expires_at with
    | some tc, some exp =>
      if now > exp then
        .error ⟨400, "Verification code has expired. Please request a new one."⟩
      else if !(tc == code) then
        .error ⟨400, "Invalid verification code."⟩
      else .ok (clearTempCode tf)
    | _, _ =>
      .error ⟨400, "No verification code found. Please request a new one."⟩

/-- Embedding of `POST /2fa/disable` (`disable_two_factor`,
app/routes/two_factor_auth.py lines 328-378).  The supplied code is
verified only when one is present (Python truthiness: `None` and the empty
string both skip the check); for the authenticator method a TOTP check is
run, while for sms/email any 6-digit string passes; on success the row is
disabled and the user's unused backup codes are deleted. -/
def disableTwoFactor (gen : String → Int → String)
    (tf? : Option TwoFactorAuthRec) (codes : List BackupCode) (uid : Nat)
    (verification_code : Option String) (now : Nat) : TwoFactorOutcome :=
  match tf? with
  | none =>
    ⟨.error ⟨400, "Two-factor authentication is not enabled"⟩, none, codes⟩
  | some tf =>
    if !tf.is_enabled then
      ⟨.error ⟨400, "Two-factor authentication is not enabled"⟩, some tf, codes⟩
    else
      let finish : TwoFactorOutcome :=
        ⟨.ok (), some { tf with is_enabled := false },
          codes.filter (fun c => !(c.user_id == uid && !c.is_used))⟩
      match verification_code with
      | none => finish
      | some c =>
        if c == "" then finish
        else
          let is_valid : Bool :=
            if tf.method == "authenticator" && tf.secret_key.isSome then
              match tf.secret_key with
              | some s => totpVerify (gen s) c now 1
              | none => false
            else if tf.method == "sms" || tf.method == "email" then
              c.length == 6 && c.data.all Char.isDigit
            else false
          if !is_valid then
            ⟨.error ⟨400, "Invalid verification code"⟩, some tf, codes⟩
          else finish

/-- Payload of a bearer token as minted by `create_access_token`
(app/routes/auth.py lines 94-104), restricted to the fields the engine
reads: the subject user id and the `token_version` snapshot. -/
structure TokenPayload where
  sub : Nat
  token_version : Nat
deriving Repr, DecidableEq

/-- Token minting for a user: the payload carries the user's current
`token_version` (app/routes/auth.py line 98). -/
def mintToken (u : User) : TokenPayload :=
  ⟨u.id, u.token_version⟩

/-- Credential mutation of `POST /auth/reset-password`
(app/routes/auth.py lines 179-180): overwrite the password hash and
increment `token_version` by one. -/
def resetPasswordApply (u : User) (new_hash : String) : User :=
  { u with password_hash := new_hash, token_version := u.token_version + 1 }

/-- Embedding of `GET /auth/me` (`get_current_user`, app/routes/auth.py
lines 903-954) after JWT decoding: checks only that the subject id is
non-zero and that the user exists.  Lines 932-933 of the source are a
comment sketching a `token_version` comparison; no such comparison is
executed. -/
def getCurrentUser (users : List User) (payload : TokenPayload) :
    Except HttpError User :=
  if payload.sub == 0 then .error ⟨401, "Invalid token"⟩
  else
    match users.find? (fun u => u.id == payload.sub) with
    | none => .error ⟨404, "User not found"⟩
    | some u => .ok u

/-!
Theorems settling the claims.
-/

/-- C2: for every login request, primary verification succeeds if and only
if a user with the given login (username or email) exists and the supplied
password matches that user's stored hash; every failure — unknown login or
wrong password — produces the one generic `Invalid credentials` error, so
the response does not reveal which part was wrong. -/
theorem signin_primary_iff_match_and_uniform_error
    (verifyPw : String → String → Bool) (users : List User)
    (login password : String) :
    (∀ u, signinPrimary verifyPw users login password = .ok u ↔
      (findByLogin users login = some u ∧
        verifyPw password u.password_hash = true)) ∧
    (∀ e, signinPrimary verifyPw users login password = .error e →
      e = invalidCredentialsError) := by
  unfold signinPrimary
  cases h : findByLogin users login with
  | none => simp
  | some u =>
    by_cases hv : verifyPw password u.password_hash = true
    · simp [hv]
    · simp [hv]

/-- Witness for C2 at a concrete store: the user is found by email and the
password check decides the outcome. -/
theorem signin_primary_iff_match_and_uniform_error_witness :
    (∀ u, signinPrimary (fun p h => p ++ "#" == h)
        [⟨1, "alice", "alice@example.com", "pw#", 0⟩] "alice" "pw" = .ok u ↔
      (findByLogin [⟨1, "alice", "alice@example.com", "pw#", 0⟩] "alice" =
          some u ∧
        (fun p h => p ++ "#" == h) "pw" u.password_hash = true)) ∧
    (∀ e, signinPrimary (fun p h => p ++ "#" == h)
        [⟨1, "alice", "alice@example.com", "pw#", 0⟩] "alice" "pw" = .error e →
      e = invalidCredentialsError) :=
  signin_primary_iff_match_and_uniform_error (fun p h => p ++ "#" == h)
    [⟨1, "alice", "alice@example.com", "pw#", 0⟩] "alice" "pw"

/-- C9: `reset_password` does bump `token_version` (so the counter is
monotone), and the token minted before the bump carries the old snapshot —
but `GET /auth/me` accepts that stale token anyway: the `token_version`
comparison exists only as a comment (app/routes/auth.py lines 932-933), so
the claimed rejection of stale tokens does not happen. -/
theorem stale_token_accepted_by_me_endpoint :
    (mintToken (⟨1, "alice", "alice@example.com", "hash0", 0⟩ : User)).token_version <
      (resetPasswordApply ⟨1, "alice", "alice@example.com", "hash0", 0⟩
        "hash1").token_version ∧
    getCurrentUser [resetPasswordApply ⟨1, "alice", "alice@example.com", "hash0", 0⟩ "hash1"]
        (mintToken (⟨1, "alice", "alice@example.com", "hash0", 0⟩ : User)) =
      .ok (resetPasswordApply ⟨1, "alice", "alice@example.com", "hash0", 0⟩
        "hash1") := by
  constructor
  · decide
  · rfl

/-- C3: the backup-code consumption of the source is read-then-write, so
two requests racing on the same unused code can both succeed once their
reads are interleaved before their writes, while any serial order lets
exactly one succeed. -/
theorem backup_code_race_two_successes :
    successCount (runSchedule 7 "h1" 100
      ⟨[⟨1, 7, "h1", false, none⟩], [.toRead, .toRead]⟩ [0, 1, 0, 1]) = 2 ∧
    successCount (runSchedule 7 "h1" 100
      ⟨[⟨1, 7, "h1", false, none⟩], [.toRead, .toRead]⟩ [0, 0, 1, 1]) = 1 := by
  constructor
  · rfl
  · rfl

/-- C10: when no active trusted-device record of the user carries the
digest of the presented token, `verify_trusted_device` returns none and
leaves the table exactly as it was, emitting no deactivation event. -/
theorem verify_trusted_device_no_match_frame (sha : String → String)
    (db : List TrustedDevice) (token : String) (info : DeviceInfo)
    (uid now : Nat)
    (h : ∀ d ∈ db, d.user_id = uid → d.is_active = true →
      d.token_hash ≠ sha token) :
    verify_trusted_device sha db token info uid now = ⟨none, db, []⟩ := by
  have hf : findActiveByToken db uid (sha token) = none := by
    unfold findActiveByToken
    rw [List.find?_eq_none]
    intro d hd
    simp only [Bool.and_eq_true, beq_iff_eq, not_and]
    intro h1 h2
    exact h d hd h1.1 h2 h1.2
  unfold verify_trusted_device
  simp [hf]

/-- Witness for C10: a store holding one active record of the user with a
different digest, and one inactive record; nothing changes. -/
theorem verify_trusted_device_no_match_frame_witness :
    verify_trusted_device (fun s => s ++ "#")
      [⟨1, 1, "dh", "other", "n", "ua", "ip", "loc", "US", true, 1000, 10⟩]
      "tok" ⟨"ua", "ip", "dh", "n", "US", "loc"⟩ 1 100 =
      ⟨none,
        [⟨1, 1, "dh", "other", "n", "ua", "ip", "loc", "US", true, 1000, 10⟩],
        []⟩ :=
  verify_trusted_device_no_match_frame (fun s => s ++ "#")
    [⟨1, 1, "dh", "other", "n", "ua", "ip", "loc", "US", true, 1000, 10⟩]
    "tok" ⟨"ua", "ip", "dh", "n", "US", "loc"⟩ 1 100 (by decide)

/-- C1: `verify_trusted_device` returns the stored record only if that
record is active, unexpired, its stored SHA-256 token digest equals the
digest of the presented token, its stored fingerprint hash equals the
request's, and its country code matches the current one with the "XX"
sentinel passing on either side; when a found record fails a later check
the result is none and the record is deactivated, tagged expired,
fingerprint_mismatch, or geographic_restriction respectively. -/
theorem verify_trusted_device_spec (sha : String → String)
    (db : List TrustedDevice) (token : String) (info : DeviceInfo)
    (uid now : Nat) :
    (∀ d, findActiveByToken db uid (sha token) = some d →
      d.user_id = uid ∧ d.token_hash = sha token ∧ d.is_active = true) ∧
    (∀ d, validate_geographic_access d info = true ↔
      (d.country_code = "XX" ∨ info.country_code = "XX" ∨
        d.country_code = info.country_code)) ∧
    ((verify_trusted_device sha db token info uid now).device.isSome ↔
      ∃ d, findActiveByToken db uid (sha token) = some d ∧
        d.is_expired now = false ∧
        validate_device_fingerprint d.device_hash info.device_hash = true ∧
        validate_geographic_access d info = true) ∧
    (∀ d, findActiveByToken db uid (sha token) = some d →
      (d.is_expired now = true →
        verify_trusted_device sha db token info uid now =
          ⟨none, deactivateDevice db d.id, [(d.id, .expired)]⟩) ∧
      (d.is_expired now = false →
        validate_device_fingerprint d.device_hash info.device_hash = false →
        verify_trusted_device sha db token info uid now =
          ⟨none, deactivateDevice db d.id, [(d.id, .fingerprint_mismatch)]⟩) ∧
      (d.is_expired now = false →
        validate_device_fingerprint d.device_hash info.device_hash = true →
        validate_geographic_access d info = false →
        verify_trusted_device sha db token info uid now =
          ⟨none, deactivateDevice db d.id, [(d.id, .geographic_restriction)]⟩) ∧
      (d.is_expired now = false →
        validate_device_fingerprint d.device_hash info.device_hash = true →
        validate_geographic_access d info = true →
        (verify_trusted_device sha db token info uid now).device =
          some { d with last_used_at := now })) := by
  refine ⟨?_, ?_, ?_, ?_⟩
  · intro d hd
    have hp := List.find?_some hd
    simp only [Bool.and_eq_true, beq_iff_eq] at hp
    exact ⟨hp.1.1, hp.1.2, hp.2⟩
  · intro d
    unfold validate_geographic_access
    by_cases h1 : d.country_code = "XX"
    · simp [h1]
    · by_cases h2 : info.country_code = "XX"
      · simp [h1, h2]
      · simp [h1, h2]
  · unfold verify_trusted_device
    cases hf : findActiveByToken db uid (sha token) with
    | none => simp [hf]
    | some d =>
      simp only [hf]
      by_cases he : d.is_expired now = true
      · simp [he]
      · rw [Bool.not_eq_true] at he
        by_cases hfp :
            validate_device_fingerprint d.device_hash info.device_hash = true
        · by_cases hg : validate_geographic_access d info = true
          · simp [he, hfp, hg]
          · rw [Bool.not_eq_true] at hg
            simp [he, hfp, hg]
        · rw [Bool.not_eq_true] at hfp
          simp [he, hfp]
  · intro d hd
    unfold verify_trusted_device
    simp only [hd]
    refine ⟨?_, ?_, ?_, ?_⟩
    · intro he; simp [he]
    · intro he hfp; simp [he, hfp]
    · intro he hfp hg; simp [he, hfp, hg]
    · intro he hfp hg; simp [he, hfp, hg]

/-- Witness for C1 at a concrete store: a record failing the geographic
check is deactivated and tagged, and the success characterization holds. -/
theorem verify_trusted_device_spec_witness :
    (∀ d, findActiveByToken
        [⟨1, 1, "dh", "tok#", "n", "ua", "ip", "loc", "US", true, 1000, 10⟩]
        1 ((fun s => s ++ "#") "tok") = some d →
      d.user_id = 1 ∧ d.token_hash = (fun s => s ++ "#") "tok" ∧
        d.is_active = true) ∧
    (∀ d, validate_geographic_access d ⟨"ua", "ip", "dh", "n", "CA", "loc"⟩ = true ↔
      (d.country_code = "XX" ∨
        (⟨"ua", "ip", "dh", "n", "CA", "loc"⟩ : DeviceInfo).country_code = "XX" ∨
        d.country_code =
          (⟨"ua", "ip", "dh", "n", "CA", "loc"⟩ : DeviceInfo).country_code)) ∧
    ((verify_trusted_device (fun s => s ++ "#")
        [⟨1, 1, "dh", "tok#", "n", "ua", "ip", "loc", "US", true, 1000, 10⟩]
        "tok" ⟨"ua", "ip", "dh", "n", "CA", "loc"⟩ 1 100).device.isSome ↔
      ∃ d, findActiveByToken
          [⟨1, 1, "dh", "tok#", "n", "ua", "ip", "loc", "US", true, 1000, 10⟩]
          1 ((fun s => s ++ "#") "tok") = some d ∧
        d.is_expired 100 = false ∧
        validate_device_fingerprint d.device_hash "dh" = true ∧
        validate_geographic_access d ⟨"ua", "ip", "dh", "n", "CA", "loc"⟩ = true) ∧
    (∀ d, findActiveByToken
        [⟨1, 1, "dh", "tok#", "n", "ua", "ip", "loc", "US", true, 1000, 10⟩]
        1 ((fun s => s ++ "#") "tok") = some d →
      (d.is_expired 100 = true →
        verify_trusted_device (fun s => s ++ "#")
          [⟨1, 1, "dh", "tok#", "n", "ua", "ip", "loc", "US", true, 1000, 10⟩]
          "tok" ⟨"ua", "ip", "dh", "n", "CA", "loc"⟩ 1 100 =
          ⟨none, deactivateDevice
            [⟨1, 1, "dh", "tok#", "n", "ua", "ip", "loc", "US", true, 1000, 10⟩]
            d.id, [(d.id, .expired)]⟩) ∧
      (d.is_expired 100 = false →
        validate_device_fingerprint d.device_hash "dh" = false →
        verify_trusted_device (fun s => s ++ "#")
          [⟨1, 1, "dh", "tok#", "n", "ua", "ip", "loc", "US", true, 1000, 10⟩]
          "tok" ⟨"ua", "ip", "dh", "n", "CA", "loc"⟩ 1 100 =
          ⟨none, deactivateDevice
            [⟨1, 1, "dh", "tok#", "n", "ua", "ip", "loc", "US", true, 1000, 10⟩]
            d.id, [(d.id, .fingerprint_mismatch)]⟩) ∧
      (d.is_expired 100 = false →
        validate_device_fingerprint d.device_hash "dh" = true →
        validate_geographic_access d ⟨"ua", "ip", "dh", "n", "CA", "loc"⟩ = false →
        verify_trusted_device (fun s => s ++ "#")
          [⟨1, 1, "dh", "tok#", "n", "ua", "ip", "loc", "US", true, 1000, 10⟩]
          "tok" ⟨"ua", "ip", "dh", "n", "CA", "loc"⟩ 1 100 =
          ⟨none, deactivateDevice
            [⟨1, 1, "dh", "tok#", "n", "ua", "ip", "loc", "US", true, 1000, 10⟩]
            d.id, [(d.id, .geographic_restriction)]⟩) ∧
      (d.is_expired 100 = false →
        validate_device_fingerprint d.device_hash "dh" = true →
        validate_geographic_access d ⟨"ua", "ip", "dh", "n", "CA", "loc"⟩ = true →
        (verify_trusted_device (fun s => s ++ "#")
          [⟨1, 1, "dh", "tok#", "n", "ua", "ip", "loc", "US", true, 1000, 10⟩]
          "tok" ⟨"ua", "ip", "dh", "n", "CA", "loc"⟩ 1 100).device =
          some { d with last_used_at := 100 })) :=
  verify_trusted_device_spec (fun s => s ++ "#")
    [⟨1, 1, "dh", "tok#", "n", "ua", "ip", "loc", "US", true, 1000, 10⟩]
    "tok" ⟨"ua", "ip", "dh", "n", "CA", "loc"⟩ 1 100

/-! Helper lemmas shared by the code-verification theorems. -/

theorem timecode_add_30 (t : Nat) : timecode (t + 30) = timecode t + 1 :=
  Nat.add_div_right t (by norm_num)

theorem timecode_eq_sub_30 (t : Nat) (h : 30 ≤ t) :
    timecode t = timecode (t - 30) + 1 := by
  conv_lhs => rw [← Nat.sub_add_cancel h]
  exact timecode_add_30 _

theorem timecode_add_90 (t : Nat) : timecode (t + 90) = timecode t + 3 := by
  have h1 : t + 90 = ((t + 30) + 30) + 30 := by omega
  rw [h1, timecode_add_30, timecode_add_30, timecode_add_30]

theorem timecode_eq_sub_90 (t : Nat) (h : 90 ≤ t) :
    timecode t = timecode (t - 90) + 3 := by
  conv_lhs => rw [← Nat.sub_add_cancel h]
  exact timecode_add_90 _

theorem totpVerify_one_iff (gen : Int → String) (code : String) (now : Nat) :
    totpVerify gen code now 1 = true ↔
      (code = gen ((timecode now : Int) - 1) ∨
        code = gen (timecode now : Int) ∨
        code = gen ((timecode now : Int) + 1)) := by
  have h3 : List.range (2 * 1 + 1) = [0, 1, 2] := rfl
  unfold totpVerify
  rw [h3]
  simp only [List.any_cons, List.any_nil, Bool.or_eq_true, beq_iff_eq,
    Bool.or_false]
  norm_num
  have h2 : (timecode now : Int) + 2 - 1 = (timecode now : Int) + 1 := by ring
  rw [h2]

theorem finishCodeVerify_valid (sha : String → String)
    (tf : TwoFactorAuthRec) (codes : List BackupCode) (uid : Nat)
    (code : String) (now : Nat) :
    finishCodeVerify sha true tf codes uid code now = ⟨.ok (), some tf, codes⟩ :=
  rfl

theorem finishCodeVerify_invalid (sha : String → String)
    (tf : TwoFactorAuthRec) (codes : List BackupCode) (uid : Nat)
    (code : String) (now : Nat)
    (hnb : findUnusedBackup codes uid (sha code) = none) :
    finishCodeVerify sha false tf codes uid code now =
      ⟨.error ⟨400, "Invalid verification code"⟩, some tf, codes⟩ := by
  unfold finishCodeVerify
  simp [hnb]

theorem verify2faLogin_authenticator (gen : String → Int → String)
    (sha : String → String) (tf : TwoFactorAuthRec) (codes : List BackupCode)
    (uid : Nat) (code : String) (now : Nat) (s : String)
    (hm : tf.method = "authenticator") (hs : tf.secret_key = some s) :
    verify2faLogin gen sha (some tf) codes uid code now =
      finishCodeVerify sha (totpVerify (gen s) code now 1) tf codes uid code
        now := by
  unfold verify2faLogin
  simp [hm, hs]

/-- C5: for an authenticator-method user with a fixed secret, the login
challenge verification at time `t` accepts the codes generated for the
time steps of `t - 30`, `t`, and `t + 30` (a ±1 time-step window) and
rejects the codes generated for the steps of `t - 90` and `t + 90`,
provided those far codes differ from the three in-window codes and the
submitted value is not also a valid backup code. -/
theorem totp_window_accepts_adjacent_rejects_far
    (gen : String → Int → String) (sha : String → String)
    (tf : TwoFactorAuthRec) (codes : List BackupCode) (uid : Nat)
    (s : String) (t : Nat)
    (hm : tf.method = "authenticator") (hs : tf.secret_key = some s)
    (ht : 90 ≤ t)
    (hfar :
      ∀ j : Int, (j = (timecode t : Int) - 3 ∨ j = (timecode t : Int) + 3) →
        ∀ i : Int, (i = (timecode t : Int) - 1 ∨ i = (timecode t : Int) ∨
          i = (timecode t : Int) + 1) → gen s j ≠ gen s i)
    (hnb : ∀ c, findUnusedBackup codes uid (sha c) = none) :
    (verify2faLogin gen sha (some tf) codes uid
      (gen s (timecode (t - 30) : Int)) t).result = .ok () ∧
    (verify2faLogin gen sha (some tf) codes uid
      (gen s (timecode t : Int)) t).result = .ok () ∧
    (verify2faLogin gen sha (some tf) codes uid
      (gen s (timecode (t + 30) : Int)) t).result = .ok () ∧
    (verify2faLogin gen sha (some tf) codes uid
      (gen s (timecode (t - 90) : Int)) t).result =
      .error ⟨400, "Invalid verification code"⟩ ∧
    (verify2faLogin gen sha (some tf) codes uid
      (gen s (timecode (t + 90) : Int)) t).result =
      .error ⟨400, "Invalid verification code"⟩ := by
  have e30m : ((timecode (t - 30) : Nat) : Int) = (timecode t : Int) - 1 := by
    have := timecode_eq_sub_30 t (by omega)
    omega
  have e30p : ((timecode (t + 30) : Nat) : Int) = (timecode t : Int) + 1 := by
    have := timecode_add_30 t
    omega
  have e90m : ((timecode (t - 90) : Nat) : Int) = (timecode t : Int) - 3 := by
    have := timecode_eq_sub_90 t ht
    omega
  have e90p : ((timecode (t + 90) : Nat) : Int) = (timecode t : Int) + 3 := by
    have := timecode_add_90 t
    omega
  have hv30m :
      totpVerify (gen s) (gen s (timecode (t - 30) : Int)) t 1 = true := by
    rw [totpVerify_one_iff]
    exact Or.inl (by rw [e30m])
  have hv0 : totpVerify (gen s) (gen s (timecode t : Int)) t 1 = true := by
    rw [totpVerify_one_iff]
    exact Or.inr (Or.inl rfl)
  have hv30p :
      totpVerify (gen s) (gen s (timecode (t + 30) : Int)) t 1 = true := by
    rw [totpVerify_one_iff]
    exact Or.inr (Or.inr (by rw [e30p]))
  have hv90m :
      totpVerify (gen s) (gen s (timecode (t - 90) : Int)) t 1 = false := by
    rw [Bool.eq_false_iff]
    rw [Ne, totpVerify_one_iff, e90m]
    push_neg
    exact ⟨hfar _ (Or.inl rfl) _ (Or.inl rfl),
      hfar _ (Or.inl rfl) _ (Or.inr (Or.inl rfl)),
      hfar _ (Or.inl rfl) _ (Or.inr (Or.inr rfl))⟩
  have hv90p :
      totpVerify (gen s) (gen s (timecode (t + 90) : Int)) t 1 = false := by
    rw [Bool.eq_false_iff]
    rw [Ne, totpVerify_one_iff, e90p]
    push_neg
    exact ⟨hfar _ (Or.inr rfl) _ (Or.inl rfl),
      hfar _ (Or.inr rfl) _ (Or.inr (Or.inl rfl)),
      hfar _ (Or.inr rfl) _ (Or.inr (Or.inr rfl))⟩
  refine ⟨?_, ?_, ?_, ?_, ?_⟩
  · rw [verify2faLogin_authenticator gen sha tf codes uid _ t s hm hs, hv30m,
      finishCodeVerify_valid]
  · rw [verify2faLogin_authenticator gen sha tf codes uid _ t s hm hs, hv0,
      finishCodeVerify_valid]
  · rw [verify2faLogin_authenticator gen sha tf codes uid _ t s hm hs, hv30p,
      finishCodeVerify_valid]
  · rw [verify2faLogin_authenticator gen sha tf codes uid _ t s hm hs, hv90m,
      finishCodeVerify_invalid sha tf codes uid _ t (hnb _)]
  · rw [verify2faLogin_authenticator gen sha tf codes uid _ t s hm hs, hv90p,
      finishCodeVerify_invalid sha tf codes uid _ t (hnb _)]

/-- Witness for C5 with the generator that prints its counter, at time
3600: codes for steps 119, 120, 121 pass, codes for steps 117 and 123 are
rejected. -/
theorem totp_window_accepts_adjacent_rejects_far_witness :
    (verify2faLogin (fun _ n => toString n) (fun c => c)
      (some ⟨7, true, "authenticator", some "SECRET", none, none, none⟩)
      [] 7 (toString (timecode (3600 - 30) : Int)) 3600).result = .ok () ∧
    (verify2faLogin (fun _ n => toString n) (fun c => c)
      (some ⟨7, true, "authenticator", some "SECRET", none, none, none⟩)
      [] 7 (toString (timecode 3600 : Int)) 3600).result = .ok () ∧
    (verify2faLogin (fun _ n => toString n) (fun c => c)
      (some ⟨7, true, "authenticator", some "SECRET", none, none, none⟩)
      [] 7 (toString (timecode (3600 + 30) : Int)) 3600).result = .ok () ∧
    (verify2faLogin (fun _ n => toString n) (fun c => c)
      (some ⟨7, true, "authenticator", some "SECRET", none, none, none⟩)
      [] 7 (toString (timecode (3600 - 90) : Int)) 3600).result =
      .error ⟨400, "Invalid verification code"⟩ ∧
    (verify2faLogin (fun _ n => toString n) (fun c => c)
      (some ⟨7, true, "authenticator", some "SECRET", none, none, none⟩)
      [] 7 (toString (timecode (3600 + 90) : Int)) 3600).result =
      .error ⟨400, "Invalid verification code"⟩ :=
  totp_window_accepts_adjacent_rejects_far (fun _ n => toString n)
    (fun c => c) ⟨7, true, "authenticator", some "SECRET", none, none, none⟩
    [] 7 "SECRET" 3600 rfl rfl (by norm_num)
    (by
      intro j hj i hi
      have hj2 : j = 117 ∨ j = 123 := by
        simpa [timecode] using hj
      have hi2 : i = 119 ∨ i = 120 ∨ i = 121 := by
        simpa [timecode] using hi
      rcases hj2 with h | h <;> rcases hi2 with h2 | h2 | h2 <;>
        subst h <;> subst h2 <;> decide)
    (fun _ => rfl)

/-- C7 counterexample: on the standalone `POST /2fa/verify` endpoint a
failed sms verification leaves the stored `temp_code` in place — it is not
cleared "regardless of outcome", so the stored code is not bounded to one
verification attempt on this path. -/
theorem temp_code_retained_on_failed_standalone_verify :
    (verifyTwoFactorEndpoint (fun _ _ => "") (fun c => c)
      (some ⟨7, true, "sms", none, some "555", some "123456", some 1000⟩)
      [] 7 "000000" 500).result =
      .error ⟨400, "Invalid verification code"⟩ ∧
    (verifyTwoFactorEndpoint (fun _ _ => "") (fun c => c)
      (some ⟨7, true, "sms", none, some "555", some "123456", some 1000⟩)
      [] 7 "000000" 500).tf =
      some ⟨7, true, "sms", none, some "555", some "123456", some 1000⟩ := by
  exact ⟨rfl, rfl⟩

/-- C7 amended: on the login path (`verify_2fa_login`) the stored sms/email
code is cleared after the check regardless of outcome and the check passes
exactly when the code matches and `now ≤ temp_code_expires_at`; on the
standalone path (`verify_two_factor`) the check passes exactly when the
code matches and `now < temp_code_expires_at`, and the stored code is
cleared only on success, so failed attempts remain retryable there. -/
theorem temp_code_clearing_disciplines (gen : String → Int → String)
    (sha : String → String) (tf : TwoFactorAuthRec) (codes : List BackupCode)
    (uid : Nat) (code : String) (now : Nat) (tc : String) (exp : Nat)
    (hm : tf.method = "sms" ∨ tf.method = "email")
    (hen : tf.is_enabled = true)
    (htc : tf.temp_code = some tc)
    (hexp : tf.temp_code_expires_at = some exp)
    (hnb : findUnusedBackup codes uid (sha code) = none) :
    ((verify2faLogin gen sha (some tf) codes uid code now).tf =
      some (clearTempCode tf)) ∧
    ((verify2faLogin gen sha (some tf) codes uid code now).result = .ok () ↔
      (now ≤ exp ∧ tc = code)) ∧
    ((verifyTwoFactorEndpoint gen sha (some tf) codes uid code now).result =
      .ok () ↔ (tc = code ∧ now < exp)) ∧
    (tc = code ∧ now < exp →
      (verifyTwoFactorEndpoint gen sha (some tf) codes uid code now).tf =
        some (clearTempCode tf)) ∧
    (¬(tc = code ∧ now < exp) →
      (verifyTwoFactorEndpoint gen sha (some tf) codes uid code now).tf =
        some tf) := by
  have hauth : (tf.method == "authenticator") = false := by
    rcases hm with h | h <;> simp [h]
  have hsms : (tf.method == "sms") = true ∨ (tf.method == "email") = true := by
    rcases hm with h | h <;> simp [h]
  have hbranch : (tf.method == "sms" || tf.method == "email") = true := by
    rcases hsms with h | h <;> simp [h]
  by_cases hgt : now > exp
  · have hle : ¬(now ≤ exp) := by omega
    have hlt : ¬(now < exp) := by omega
    refine ⟨?_, ?_, ?_, ?_, ?_⟩
    · unfold verify2faLogin
      simp [hauth, hbranch, htc, hexp, hgt, finishCodeVerify, hnb]
    · unfold verify2faLogin
      simp [hauth, hbranch, htc, hexp, hgt, finishCodeVerify, hnb, hle]
    · unfold verifyTwoFactorEndpoint
      simp [hen, hauth, hbranch, htc, hexp, hlt, finishCodeVerify, hnb]
    · intro h
      exact absurd h.2 hlt
    · intro h
      unfold verifyTwoFactorEndpoint
      simp [hen, hauth, hbranch, htc, hexp, hlt, finishCodeVerify, hnb]
  · have hle : now ≤ exp := by omega
    by_cases hbeq : tc = code
    · by_cases hlt : now < exp
      · refine ⟨?_, ?_, ?_, ?_, ?_⟩
        · unfold verify2faLogin
          simp [hauth, hbranch, htc, hexp, hgt, hbeq, finishCodeVerify]
        · unfold verify2faLogin
          simp [hauth, hbranch, htc, hexp, hgt, hbeq, finishCodeVerify, hle]
        · unfold verifyTwoFactorEndpoint
          simp [hen, hauth, hbranch, htc, hexp, hlt, hbeq, finishCodeVerify]
        · intro _
          unfold verifyTwoFactorEndpoint
          simp [hen, hauth, hbranch, htc, hexp, hlt, hbeq, finishCodeVerify]
        · intro h
          exact absurd ⟨hbeq, hlt⟩ h
      · have hnow : now = exp := by omega
        refine ⟨?_, ?_, ?_, ?_, ?_⟩
        · unfold verify2faLogin
          simp [hauth, hbranch, htc, hexp, hgt, hbeq, finishCodeVerify]
        · unfold verify2faLogin
          simp [hauth, hbranch, htc, hexp, hgt, hbeq, finishCodeVerify, hle]
        · unfold verifyTwoFactorEndpoint
          simp [hen, hauth, hbranch, htc, hexp, hlt, finishCodeVerify, hnb]
        · intro h
          exact absurd h.2 hlt
        · intro _
          unfold verifyTwoFactorEndpoint
          simp [hen, hauth, hbranch, htc, hexp, hlt, finishCodeVerify, hnb]
    · refine ⟨?_, ?_, ?_, ?_, ?_⟩
      · unfold verify2faLogin
        simp [hauth, hbranch, htc, hexp, hgt, hbeq, finishCodeVerify, hnb]
      · unfold verify2faLogin
        simp [hauth, hbranch, htc, hexp, hgt, hbeq, finishCodeVerify, hnb]
      · unfold verifyTwoFactorEndpoint
        simp [hen, hauth, hbranch, htc, hexp, hbeq, finishCodeVerify, hnb]
      · intro h
        exact absurd h.1 hbeq
      · intro _
        unfold verifyTwoFactorEndpoint
        simp [hen, hauth, hbranch, htc, hexp, hbeq, finishCodeVerify, hnb]

/-- Witness for C7 amended at a concrete record: matching code before
expiry on both endpoints. -/
theorem temp_code_clearing_disciplines_witness :
    ((verify2faLogin (fun _ _ => "") (fun c => c)
      (some ⟨7, true, "sms", none, some "555", some "123456", some 1000⟩)
      [] 7 "123456" 500).tf =
      some (clearTempCode
        ⟨7, true, "sms", none, some "555", some "123456", some 1000⟩)) ∧
    ((verify2faLogin (fun _ _ => "") (fun c => c)
      (some ⟨7, true, "sms", none, some "555", some "123456", some 1000⟩)
      [] 7 "123456" 500).result = .ok () ↔
      ((500 : Nat) ≤ 1000 ∧ "123456" = "123456")) ∧
    ((verifyTwoFactorEndpoint (fun _ _ => "") (fun c => c)
      (some ⟨7, true, "sms", none, some "555", some "123456", some 1000⟩)
      [] 7 "123456" 500).result = .ok () ↔
      ("123456" = "123456" ∧ (500 : Nat) < 1000)) ∧
    ("123456" = "123456" ∧ (500 : Nat) < 1000 →
      (verifyTwoFactorEndpoint (fun _ _ => "") (fun c => c)
        (some ⟨7, true, "sms", none, some "555", some "123456", some 1000⟩)
        [] 7 "123456" 500).tf =
        some (clearTempCode
          ⟨7, true, "sms", none, some "555", some "123456", some 1000⟩)) ∧
    (¬("123456" = "123456" ∧ (500 : Nat) < 1000) →
      (verifyTwoFactorEndpoint (fun _ _ => "") (fun c => c)
        (some ⟨7, true, "sms", none, some "555", some "123456", some 1000⟩)
        [] 7 "123456" 500).tf =
        some ⟨7, true, "sms", none, some "555", some "123456", some 1000⟩) :=
  temp_code_clearing_disciplines (fun _ _ => "") (fun c => c)
    ⟨7, true, "sms", none, some "555", some "123456", some 1000⟩ [] 7
    "123456" 500 "123456" 1000 (Or.inl rfl) rfl rfl rfl rfl

/-- C8 counterexample: a code issued at time 0 (expiry 600 s) presented
with its correct value at 601 s on the login path is rejected with the
generic `Invalid verification code` error, which is not the distinct
code-expired error the claim names. -/
theorem expired_code_rejected_with_generic_error :
    (verify2faLogin (fun _ _ => "") (fun c => c)
      (some (storeTempCode ⟨7, true, "email", none, none, none, none⟩
        "123456" 0)) [] 7 "123456" 601).result =
      .error ⟨400, "Invalid verification code"⟩ ∧
    (⟨400, "Invalid verification code"⟩ : HttpError) ≠
      ⟨400, "Verification code has expired. Please request a new one."⟩ := by
  exact ⟨rfl, by decide⟩

/-- C8 amended: a `temp_code` issued at time T with its 10-minute expiry is
accepted with the correct value at any time strictly before T+600 on all
three verification paths, and rejected at any time after T+600 regardless
of the submitted value — the setup path with its distinct expired-code
error, the login and standalone paths with the generic
`Invalid verification code` error. -/
theorem temp_code_expiry_boundary (gen : String → Int → String)
    (sha : String → String) (tf0 : TwoFactorAuthRec)
    (codes : List BackupCode) (uid : Nat) (issued value : String)
    (T now : Nat)
    (hm : tf0.method = "sms" ∨ tf0.method = "email")
    (hen : tf0.is_enabled = true)
    (hnb : ∀ c, findUnusedBackup codes uid (sha c) = none) :
    (now < T + 600 →
      (verify2faLogin gen sha (some (storeTempCode tf0 issued T)) codes uid
        issued now).result = .ok () ∧
      (verifyTwoFactorEndpoint gen sha (some (storeTempCode tf0 issued T))
        codes uid issued now).result = .ok () ∧
      verifySetupCode (some (storeTempCode tf0 issued T)) issued now =
        .ok (clearTempCode (storeTempCode tf0 issued T))) ∧
    (now > T + 600 →
      (verify2faLogin gen sha (some (storeTempCode tf0 issued T)) codes uid
        value now).result = .error ⟨400, "Invalid verification code"⟩ ∧
      (verifyTwoFactorEndpoint gen sha (some (storeTempCode tf0 issued T))
        codes uid value now).result =
        .error ⟨400, "Invalid verification code"⟩ ∧
      verifySetupCode (some (storeTempCode tf0 issued T)) value now =
        .error
          ⟨400, "Verification code has expired. Please request a new one."⟩) := by
  have hauth : ((storeTempCode tf0 issued T).method == "authenticator") =
      false := by
    rcases hm with h | h <;> simp [storeTempCode, h]
  have hbranch : ((storeTempCode tf0 issued T).method == "sms" ||
      (storeTempCode tf0 issued T).method == "email") = true := by
    rcases hm with h | h <;> simp [storeTempCode, h]
  have hen2 : (storeTempCode tf0 issued T).is_enabled = true := hen
  have htc : (storeTempCode tf0 issued T).temp_code = some issued := rfl
  have hexp : (storeTempCode tf0 issued T).temp_code_expires_at =
      some (T + 600) := rfl
  constructor
  · intro hlt
    have hgt : ¬(now > T + 600) := by omega
    refine ⟨?_, ?_, ?_⟩
    · unfold verify2faLogin
      simp [hauth, hbranch, htc, hexp, hgt, finishCodeVerify]
    · unfold verifyTwoFactorEndpoint
      simp [hen2, hauth, hbranch, htc, hexp, hlt, finishCodeVerify]
    · unfold verifySetupCode
      simp [htc, hexp, hgt]
  · intro hgt
    have hlt : ¬(now < T + 600) := by omega
    refine ⟨?_, ?_, ?_⟩
    · unfold verify2faLogin
      simp [hauth, hbranch, htc, hexp, hgt, finishCodeVerify, hnb]
    · unfold verifyTwoFactorEndpoint
      simp [hen2, hauth, hbranch, htc, hexp, hlt, finishCodeVerify, hnb]
    · unfold verifySetupCode
      simp [htc, hexp, hgt]

/-- Witness for C8 amended: issued at time 0, accepted with the correct
value at 599 on every path and rejected at 601 with the path's error. -/
theorem temp_code_expiry_boundary_witness :
    ((599 : Nat) < 0 + 600 →
      (verify2faLogin (fun _ _ => "") (fun c => c)
        (some (storeTempCode ⟨7, true, "sms", none, none, none, none⟩
          "123456" 0)) [] 7 "123456" 599).result = .ok () ∧
      (verifyTwoFactorEndpoint (fun _ _ => "") (fun c => c)
        (some (storeTempCode ⟨7, true, "sms", none, none, none, none⟩
          "123456" 0)) [] 7 "123456" 599).result = .ok () ∧
      verifySetupCode
        (some (storeTempCode ⟨7, true, "sms", none, none, none, none⟩
          "123456" 0)) "123456" 599 =
        .ok (clearTempCode
          (storeTempCode ⟨7, true, "sms", none, none, none, none⟩
            "123456" 0))) ∧
    ((599 : Nat) > 0 + 600 →
      (verify2faLogin (fun _ _ => "") (fun c => c)
        (some (storeTempCode ⟨7, true, "sms", none, none, none, none⟩
          "123456" 0)) [] 7 "999999" 599).result =
        .error ⟨400, "Invalid verification code"⟩ ∧
      (verifyTwoFactorEndpoint (fun _ _ => "") (fun c => c)
        (some (storeTempCode ⟨7, true, "sms", none, none, none, none⟩
          "123456" 0)) [] 7 "999999" 599).result =
        .error ⟨400, "Invalid verification code"⟩ ∧
      verifySetupCode
        (some (storeTempCode ⟨7, true, "sms", none, none, none, none⟩
          "123456" 0)) "999999" 599 =
        .error
          ⟨400, "Verification code has expired. Please request a new one."⟩) :=
  temp_code_expiry_boundary (fun _ _ => "") (fun c => c)
    ⟨7, true, "sms", none, none, none, none⟩ [] 7 "123456" "999999" 0 599
    (Or.inl rfl) rfl (fun _ => rfl)

/-- C6 counterexample: an sms-method user with stored `temp_code` "123456"
can disable 2FA with the non-matching code "000000" (any 6-digit string
passes), and even with no code at all — so `enabled` is flipped without a
fresh successful verification using the active method. -/
theorem disable_without_method_verification :
    (disableTwoFactor (fun _ _ => "")
      (some ⟨7, true, "sms", none, some "555", some "123456", some 1000⟩)
      [⟨1, 7, "bh", false, none⟩] 7 (some "000000") 500).result = .ok () ∧
    (disableTwoFactor (fun _ _ => "")
      (some ⟨7, true, "sms", none, some "555", some "123456", some 1000⟩)
      [⟨1, 7, "bh", false, none⟩] 7 (some "000000") 500).tf =
      some ⟨7, false, "sms", none, some "555", some "123456", some 1000⟩ ∧
    (disableTwoFactor (fun _ _ => "")
      (some ⟨7, true, "sms", none, some "555", some "123456", some 1000⟩)
      [⟨1, 7, "bh", false, none⟩] 7 (some "000000") 500).codes = [] ∧
    (disableTwoFactor (fun _ _ => "")
      (some ⟨7, true, "sms", none, some "555", some "123456", some 1000⟩)
      [] 7 none 500).result = .ok () := by
  exact ⟨rfl, rfl, rfl, rfl⟩

/-- C6 amended: for a user with 2FA enabled, the disable endpoint succeeds
exactly when no (or an empty) code is supplied — verification is then
skipped — or the supplied code passes the method's check, which is a TOTP
±1-window check for authenticator but merely "any 6-digit numeric string"
for sms/email; on success `enabled` is set false and all the user's unused
backup codes are deleted, and on failure the generic invalid-code error is
returned with no state change. -/
theorem disable_two_factor_spec (gen : String → Int → String)
    (tf : TwoFactorAuthRec) (codes : List BackupCode) (uid : Nat)
    (vc : Option String) (now : Nat)
    (hen : tf.is_enabled = true) :
    ((disableTwoFactor gen (some tf) codes uid vc now).result = .ok () ↔
      (vc = none ∨ vc = some "" ∨
        (∃ c, vc = some c ∧ tf.method = "authenticator" ∧
          ∃ s, tf.secret_key = some s ∧ totpVerify (gen s) c now 1 = true) ∨
        (∃ c, vc = some c ∧ (tf.method = "sms" ∨ tf.method = "email") ∧
          c.length = 6 ∧ c.data.all Char.isDigit = true))) ∧
    ((disableTwoFactor gen (some tf) codes uid vc now).result = .ok () →
      (disableTwoFactor gen (some tf) codes uid vc now).tf =
        some { tf with is_enabled := false } ∧
      (disableTwoFactor gen (some tf) codes uid vc now).codes =
        codes.filter (fun c => !(c.user_id == uid && !c.is_used))) ∧
    (∀ e, (disableTwoFactor gen (some tf) codes uid vc now).result =
        .error e →
      e = ⟨400, "Invalid verification code"⟩ ∧
      (disableTwoFactor gen (some tf) codes uid vc now).tf = some tf ∧
      (disableTwoFactor gen (some tf) codes uid vc now).codes = codes) := by
  unfold disableTwoFactor
  simp only [hen, Bool.not_true, Bool.false_eq_true, if_false]
  cases vc with
  | none => simp
  | some c =>
    by_cases hc : c = ""
    · subst hc
      simp
    · simp only [hc, if_false, Option.some.injEq]
      by_cases hau : tf.method = "authenticator"
      · cases hsk : tf.secret_key with
        | none => simp [hau, hsk, hc]
        | some s =>
          by_cases htot : totpVerify (gen s) c now 1 = true
          · simp [hau, hsk, htot, hc]
          · simp [hau, hsk, htot, hc]
      · by_cases hsms : tf.method = "sms"
        · by_cases hlen : c.length = 6 ∧ c.data.all Char.isDigit = true
          · simp [hau, hsms, hlen.1, hlen.2, hc]
            exact List.all_eq_true.mp hlen.2
          · have hvalid : (c.length == 6 && c.data.all Char.isDigit) = false := by
              rcases Decidable.not_and_iff_or_not.mp hlen with h | h <;>
                simp [h]
            simp [hau, hsms, hvalid, hc, hlen]
            intro h6
            have hall : ¬(c.data.all Char.isDigit = true) :=
              fun hall => hlen ⟨h6, hall⟩
            simpa using hall
        · by_cases hem : tf.method = "email"
          · by_cases hlen : c.length = 6 ∧ c.data.all Char.isDigit = true
            · simp [hau, hem, hlen.1, hlen.2, hc]
              exact List.all_eq_true.mp hlen.2
            · have hvalid : (c.length == 6 && c.data.all Char.isDigit) = false := by
                rcases Decidable.not_and_iff_or_not.mp hlen with h | h <;>
                  simp [h]
              simp [hau, hem, hvalid, hc, hlen]
              intro h6
              have hall : ¬(c.data.all Char.isDigit = true) :=
                fun hall => hlen ⟨h6, hall⟩
              simpa using hall
          · simp [hau, hsms, hem, hc]

/-- Witness for C6 amended: an authenticator user supplying the in-window
code succeeds and the backup codes are purged. -/
theorem disable_two_factor_spec_witness :
    ((disableTwoFactor (fun _ n => toString n)
      (some ⟨7, true, "authenticator", some "SECRET", none, none, none⟩)
      [⟨1, 7, "bh", false, none⟩, ⟨2, 7, "uh", true, some 5⟩] 7
      (some (toString (timecode 3600 : Int))) 3600).result = .ok () ↔
      ((some (toString (timecode 3600 : Int)) : Option String) = none ∨
        (some (toString (timecode 3600 : Int)) : Option String) = some "" ∨
        (∃ c, (some (toString (timecode 3600 : Int)) : Option String) =
            some c ∧
          (⟨7, true, "authenticator", some "SECRET", none, none, none⟩ :
            TwoFactorAuthRec).method = "authenticator" ∧
          ∃ s, (⟨7, true, "authenticator", some "SECRET", none, none,
            none⟩ : TwoFactorAuthRec).secret_key = some s ∧
            totpVerify ((fun _ n => toString n) s) c 3600 1 = true) ∨
        (∃ c, (some (toString (timecode 3600 : Int)) : Option String) =
            some c ∧
          ((⟨7, true, "authenticator", some "SECRET", none, none, none⟩ :
            TwoFactorAuthRec).method = "sms" ∨
           (⟨7, true, "authenticator", some "SECRET", none, none, none⟩ :
            TwoFactorAuthRec).method = "email") ∧
          c.length = 6 ∧ c.data.all Char.isDigit = true))) ∧
    ((disableTwoFactor (fun _ n => toString n)
      (some ⟨7, true, "authenticator", some "SECRET", none, none, none⟩)
      [⟨1, 7, "bh", false, none⟩, ⟨2, 7, "uh", true, some 5⟩] 7
      (some (toString (timecode 3600 : Int))) 3600).result = .ok () →
      (disableTwoFactor (fun _ n => toString n)
        (some ⟨7, true, "authenticator", some "SECRET", none, none, none⟩)
        [⟨1, 7, "bh", false, none⟩, ⟨2, 7, "uh", true, some 5⟩] 7
        (some (toString (timecode 3600 : Int))) 3600).tf =
        some { (⟨7, true, "authenticator", some "SECRET", none, none,
          none⟩ : TwoFactorAuthRec) with is_enabled := false } ∧
      (disableTwoFactor (fun _ n => toString n)
        (some ⟨7, true, "authenticator", some "SECRET", none, none, none⟩)
        [⟨1, 7, "bh", false, none⟩, ⟨2, 7, "uh", true, some 5⟩] 7
        (some (toString (timecode 3600 : Int))) 3600).codes =
        ([⟨1, 7, "bh", false, none⟩, ⟨2, 7, "uh", true, some 5⟩] :
          List BackupCode).filter
          (fun c => !(c.user_id == 7 && !c.is_used))) ∧
    (∀ e, (disableTwoFactor (fun _ n => toString n)
        (some ⟨7, true, "authenticator", some "SECRET", none, none, none⟩)
        [⟨1, 7, "bh", false, none⟩, ⟨2, 7, "uh", true, some 5⟩] 7
        (some (toString (timecode 3600 : Int))) 3600).result = .error e →
      e = ⟨400, "Invalid verification code"⟩ ∧
      (disableTwoFactor (fun _ n => toString n)
        (some ⟨7, true, "authenticator", some "SECRET", none, none, none⟩)
        [⟨1, 7, "bh", false, none⟩, ⟨2, 7, "uh", true, some 5⟩] 7
        (some (toString (timecode 3600 : Int))) 3600).tf =
        some ⟨7, true, "authenticator", some "SECRET", none, none, none⟩ ∧
      (disableTwoFactor (fun _ n => toString n)
        (some ⟨7, true, "authenticator", some "SECRET", none, none, none⟩)
        [⟨1, 7, "bh", false, none⟩, ⟨2, 7, "uh", true, some 5⟩] 7
        (some (toString (timecode 3600 : Int))) 3600).codes =
        [⟨1, 7, "bh", false, none⟩, ⟨2, 7, "uh", true, some 5⟩]) :=
  disable_two_factor_spec (fun _ n => toString n)
    ⟨7, true, "authenticator", some "SECRET", none, none, none⟩
    [⟨1, 7, "bh", false, none⟩, ⟨2, 7, "uh", true, some 5⟩] 7
    (some (toString (timecode 3600 : Int))) 3600 rfl

/-! Helper lemmas on the trusted-device table for the device-cap claim. -/

theorem mem_activeDevices {db : List TrustedDevice} {uid : Nat}
    {d : TrustedDevice} :
    d ∈ activeDevices db uid ↔
      (d ∈ db ∧ d.user_id = uid ∧ d.is_active = true) := by
  unfold activeDevices
  simp [List.mem_filter, Bool.and_eq_true, and_assoc]

theorem minByLastUsed_eq_none :
    ∀ {l : List TrustedDevice}, minByLastUsed l = none → l = [] := by
  intro l h
  cases l with
  | nil => rfl
  | cons d ds =>
    unfold minByLastUsed at h
    cases h2 : minByLastUsed ds with
    | none => simp [h2] at h
    | some m2 =>
      simp only [h2] at h
      by_cases hle : d.last_used_at ≤ m2.last_used_at
      · rw [if_pos hle] at h
        exact absurd h (by simp)
      · rw [if_neg hle] at h
        exact absurd h (by simp)

theorem minByLastUsed_mem :
    ∀ {l : List TrustedDevice} {m : TrustedDevice},
      minByLastUsed l = some m → m ∈ l := by
  intro l
  induction l with
  | nil => intro m h; simp [minByLastUsed] at h
  | cons d ds ih =>
    intro m h
    unfold minByLastUsed at h
    cases h2 : minByLastUsed ds with
    | none =>
      simp only [h2] at h
      simp at h
      simp [h]
    | some m2 =>
      simp only [h2] at h
      by_cases hle : d.last_used_at ≤ m2.last_used_at
      · rw [if_pos hle] at h
        simp at h
        simp [h]
      · rw [if_neg hle] at h
        simp at h
        subst h
        exact List.mem_cons_of_mem d (ih h2)

theorem minByLastUsed_le :
    ∀ {l : List TrustedDevice} {m : TrustedDevice},
      minByLastUsed l = some m →
        ∀ e ∈ l, m.last_used_at ≤ e.last_used_at := by
  intro l
  induction l with
  | nil => intro m h; simp [minByLastUsed] at h
  | cons d ds ih =>
    intro m h e he
    unfold minByLastUsed at h
    cases h2 : minByLastUsed ds with
    | none =>
      simp only [h2] at h
      simp at h
      subst h
      have hds : ds = [] := minByLastUsed_eq_none h2
      subst hds
      rcases List.mem_singleton.mp he with rfl
      exact le_refl _
    | some m2 =>
      simp only [h2] at h
      rcases List.mem_cons.mp he with he1 | he2
      · by_cases hle : d.last_used_at ≤ m2.last_used_at
        · rw [if_pos hle] at h
          simp at h
          subst h
          simp [he1]
        · rw [if_neg hle] at h
          simp at h
          subst h
          rw [he1]
          omega
      · by_cases hle : d.last_used_at ≤ m2.last_used_at
        · rw [if_pos hle] at h
          simp at h
          subst h
          exact le_trans hle (ih h2 e he2)
        · rw [if_neg hle] at h
          simp at h
          subst h
          exact ih h2 e he2

theorem minByLastUsed_exists {l : List TrustedDevice} (h : l ≠ []) :
    ∃ m, minByLastUsed l = some m := by
  cases l with
  | nil => exact absurd rfl h
  | cons d ds =>
    unfold minByLastUsed
    cases minByLastUsed ds with
    | none => exact ⟨d, rfl⟩
    | some m2 =>
      by_cases hle : d.last_used_at ≤ m2.last_used_at
      · exact ⟨d, by simp [hle]⟩
      · exact ⟨m2, by simp [hle]⟩

theorem deactivateDevice_eq_of_absent (l : List TrustedDevice) (i : Nat)
    (h : ∀ x ∈ l, x.id ≠ i) : deactivateDevice l i = l := by
  unfold deactivateDevice
  have h2 : ∀ x ∈ l,
      (if x.id == i then { x with is_active := false } else x) = id x := by
    intro x hx
    simp [h x hx]
  rw [List.map_congr_left h2, List.map_id]

theorem mem_of_mem_deactivate {l : List TrustedDevice} {i : Nat}
    {e : TrustedDevice} (he : e ∈ deactivateDevice l i) :
    ∃ x ∈ l, e = if x.id == i then { x with is_active := false } else x := by
  unfold deactivateDevice at he
  obtain ⟨x, hx, hxe⟩ := List.mem_map.mp he
  exact ⟨x, hx, hxe.symm⟩

theorem active_count_after_deactivate :
    ∀ (db : List TrustedDevice) (uid : Nat) (m : TrustedDevice),
      (db.map TrustedDevice.id).Nodup → m ∈ db → m.user_id = uid →
      m.is_active = true →
      (activeDevices (deactivateDevice db m.id) uid).length + 1 =
        (activeDevices db uid).length := by
  intro db
  induction db with
  | nil => intro uid m _ hm; exact absurd hm (List.not_mem_nil m)
  | cons d ds ih =>
    intro uid m hnd hm huser hact
    rw [List.map_cons] at hnd
    have hnd1 : d.id ∉ ds.map TrustedDevice.id := (List.nodup_cons.mp hnd).1
    have hnd2 : (ds.map TrustedDevice.id).Nodup := (List.nodup_cons.mp hnd).2
    rcases List.mem_cons.mp hm with rfl | hm2
    · have hds : deactivateDevice ds m.id = ds := by
        apply deactivateDevice_eq_of_absent
        intro x hx hxe
        exact hnd1 (by rw [← hxe]; exact List.mem_map_of_mem TrustedDevice.id hx)
      unfold deactivateDevice
      simp only [List.map_cons, beq_self_eq_true, if_pos]
      have hds2 : ds.map
          (fun d2 => if d2.id == m.id then { d2 with is_active := false }
            else d2) = ds := hds
      rw [hds2]
      unfold activeDevices
      rw [List.filter_cons, List.filter_cons]
      simp [huser, hact]
    · have hdm : d.id ≠ m.id := by
        intro he
        exact hnd1 (by rw [he]; exact List.mem_map_of_mem TrustedDevice.id hm2)
      unfold deactivateDevice
      simp only [List.map_cons]
      rw [if_neg (by simpa using hdm)]
      have hrec := ih uid m hnd2 hm2 huser hact
      unfold activeDevices at hrec ⊢
      rw [List.filter_cons, List.filter_cons]
      by_cases hd : (d.user_id == uid && d.is_active) = true
      · simp only [hd, if_pos]
        simp only [List.length_cons]
        unfold deactivateDevice at hrec
        omega
      · simp only [hd]
        simp only [Bool.false_eq_true, if_false]
        unfold deactivateDevice at hrec
        exact hrec

theorem cleanup_eq_self (db : List TrustedDevice) (uid now : Nat)
    (h : ∀ d ∈ db,
      ¬(d.user_id = uid ∧ d.is_active = true ∧ d.expires_at < now)) :
    cleanup_expired_devices db uid now = db := by
  unfold cleanup_expired_devices
  have hnil : db.filter (fun d =>
      d.user_id == uid && d.is_active && decide (d.expires_at < now)) = [] := by
    rw [List.filter_eq_nil_iff]
    intro a ha
    simp only [Bool.and_eq_true, beq_iff_eq, decide_eq_true_eq, not_and]
    intro h1 h2
    exact h a ha ⟨h1.1, h1.2, h2⟩
  rw [hnil]
  rfl

/-- C4 counterexample: a user with 5 active devices of which one
(not the least-recently-used) is expired but still flagged active ends up
with only 4 active devices after saving a 6th — `save_trusted_device` also
deactivates expired rows, so "exactly 5 remain active" fails as stated. -/
theorem sixth_device_with_expired_leaves_four :
    (activeDevices
      [⟨1, 1, "dh", "t1", "n", "ua", "ip", "loc", "US", true, 1000, 10⟩,
       ⟨2, 1, "dh", "t2", "n", "ua", "ip", "loc", "US", true, 1000, 20⟩,
       ⟨3, 1, "dh", "t3", "n", "ua", "ip", "loc", "US", true, 5, 30⟩,
       ⟨4, 1, "dh", "t4", "n", "ua", "ip", "loc", "US", true, 1000, 40⟩,
       ⟨5, 1, "dh", "t5", "n", "ua", "ip", "loc", "US", true, 1000, 50⟩] 1).length
      = 5 ∧
    (activeDevices (save_trusted_device
      [⟨1, 1, "dh", "t1", "n", "ua", "ip", "loc", "US", true, 1000, 10⟩,
       ⟨2, 1, "dh", "t2", "n", "ua", "ip", "loc", "US", true, 1000, 20⟩,
       ⟨3, 1, "dh", "t3", "n", "ua", "ip", "loc", "US", true, 5, 30⟩,
       ⟨4, 1, "dh", "t4", "n", "ua", "ip", "loc", "US", true, 1000, 40⟩,
       ⟨5, 1, "dh", "t5", "n", "ua", "ip", "loc", "US", true, 1000, 50⟩]
      ⟨6, 1, "dh", "t6", "n", "ua", "ip", "loc", "US", true, 1000, 100⟩
      100) 1).length = 4 := by
  exact ⟨rfl, rfl⟩

/-- C4 amended: for a user holding exactly 5 active and unexpired trusted
devices (with distinct row ids), saving a 6th fresh device deactivates the
least-recently-used active device — the minimum of `last_used_at`, which
stays deactivated in the resulting table — and exactly 5 devices remain
active for the user. -/
theorem device_cap_eviction (db : List TrustedDevice) (dev : TrustedDevice)
    (uid now : Nat)
    (hids : (db.map TrustedDevice.id).Nodup)
    (hcount : (activeDevices db uid).length = 5)
    (hunexp : ∀ d ∈ activeDevices db uid, ¬ d.expires_at < now)
    (huser : dev.user_id = uid) (hact : dev.is_active = true)
    (hfresh : dev.id ∉ db.map TrustedDevice.id) :
    (activeDevices (save_trusted_device db dev now) uid).length = 5 ∧
    ∃ m, minByLastUsed (activeDevices db uid) = some m ∧
      m ∈ activeDevices db uid ∧
      (∀ e ∈ activeDevices db uid, m.last_used_at ≤ e.last_used_at) ∧
      (∀ e ∈ save_trusted_device db dev now, e.id = m.id →
        e.is_active = false) := by
  have hne : activeDevices db uid ≠ [] := by
    intro hnil
    rw [hnil] at hcount
    simp at hcount
  obtain ⟨m, hmin⟩ := minByLastUsed_exists hne
  have hmem := minByLastUsed_mem hmin
  have hm := mem_activeDevices.mp hmem
  have henf : enforce_device_limit db uid = deactivateDevice db m.id := by
    unfold enforce_device_limit
    simp only [hcount, hmin]
    rfl
  have hclean :
      cleanup_expired_devices (deactivateDevice db m.id) uid now =
        deactivateDevice db m.id := by
    apply cleanup_eq_self
    intro d hd hcond
    obtain ⟨x, hx, hxe⟩ := mem_of_mem_deactivate hd
    by_cases hxid : x.id = m.id
    · rw [if_pos (by simp [hxid])] at hxe
      rw [hxe] at hcond
      exact absurd hcond.2.1 (by simp)
    · rw [if_neg (by simp [hxid])] at hxe
      subst hxe
      exact hunexp d (mem_activeDevices.mpr ⟨hx, hcond.1, hcond.2.1⟩)
        hcond.2.2
  have hsave : save_trusted_device db dev now =
      deactivateDevice db m.id ++ [dev] := by
    unfold save_trusted_device
    rw [huser, henf, hclean]
  have hcnt2 := active_count_after_deactivate db uid m hids hm.1 hm.2.1 hm.2.2
  constructor
  · rw [hsave]
    unfold activeDevices at hcnt2 hcount ⊢
    rw [List.filter_append]
    have hdev : List.filter
        (fun d => d.user_id == uid && d.is_active) [dev] = [dev] := by
      simp [huser, hact]
    rw [hdev, List.length_append]
    simp only [List.length_cons, List.length_nil]
    omega
  · refine ⟨m, hmin, hmem, minByLastUsed_le hmin, ?_⟩
    intro e he heid
    rw [hsave] at he
    rcases List.mem_append.mp he with he1 | he2
    · obtain ⟨x, hx, hxe⟩ := mem_of_mem_deactivate he1
      by_cases hxid : x.id = m.id
      · rw [if_pos (by simp [hxid])] at hxe
        rw [hxe]
      · rw [if_neg (by simp [hxid])] at hxe
        subst hxe
        exact absurd heid hxid
    · rcases List.mem_singleton.mp he2 with rfl
      exact absurd (by rw [heid]; exact List.mem_map_of_mem TrustedDevice.id hm.1)
        hfresh

/-- Witness for C4 amended: 5 unexpired active devices, device 1 is the
LRU; after saving device 6, five devices are active and device 1 is
deactivated. -/
theorem device_cap_eviction_witness :
    (activeDevices (save_trusted_device
      [⟨1, 1, "dh", "t1", "n", "ua", "ip", "loc", "US", true, 1000, 10⟩,
       ⟨2, 1, "dh", "t2", "n", "ua", "ip", "loc", "US", true, 1000, 20⟩,
       ⟨3, 1, "dh", "t3", "n", "ua", "ip", "loc", "US", true, 1000, 30⟩,
       ⟨4, 1, "dh", "t4", "n", "ua", "ip", "loc", "US", true, 1000, 40⟩,
       ⟨5, 1, "dh", "t5", "n", "ua", "ip", "loc", "US", true, 1000, 50⟩]
      ⟨6, 1, "dh", "t6", "n", "ua", "ip", "loc", "US", true, 1000, 100⟩
      100) 1).length = 5 ∧
    ∃ m, minByLastUsed (activeDevices
      [⟨1, 1, "dh", "t1", "n", "ua", "ip", "loc", "US", true, 1000, 10⟩,
       ⟨2, 1, "dh", "t2", "n", "ua", "ip", "loc", "US", true, 1000, 20⟩,
       ⟨3, 1, "dh", "t3", "n", "ua", "ip", "loc", "US", true, 1000, 30⟩,
       ⟨4, 1, "dh", "t4", "n", "ua", "ip", "loc", "US", true, 1000, 40⟩,
       ⟨5, 1, "dh", "t5", "n", "ua", "ip", "loc", "US", true, 1000, 50⟩] 1) =
        some m ∧
      m ∈ activeDevices
        [⟨1, 1, "dh", "t1", "n", "ua", "ip", "loc", "US", true, 1000, 10⟩,
         ⟨2, 1, "dh", "t2", "n", "ua", "ip", "loc", "US", true, 1000, 20⟩,
         ⟨3, 1, "dh", "t3", "n", "ua", "ip", "loc", "US", true, 1000, 30⟩,
         ⟨4, 1, "dh", "t4", "n", "ua", "ip", "loc", "US", true, 1000, 40⟩,
         ⟨5, 1, "dh", "t5", "n", "ua", "ip", "loc", "US", true, 1000, 50⟩] 1 ∧
      (∀ e ∈ activeDevices
        [⟨1, 1, "dh", "t1", "n", "ua", "ip", "loc", "US", true, 1000, 10⟩,
         ⟨2, 1, "dh", "t2", "n", "ua", "ip", "loc", "US", true, 1000, 20⟩,
         ⟨3, 1, "dh", "t3", "n", "ua", "ip", "loc", "US", true, 1000, 30⟩,
         ⟨4, 1, "dh", "t4", "n", "ua", "ip", "loc", "US", true, 1000, 40⟩,
         ⟨5, 1, "dh", "t5", "n", "ua", "ip", "loc", "US", true, 1000, 50⟩] 1,
        m.last_used_at ≤ e.last_used_at) ∧
      (∀ e ∈ save_trusted_device
        [⟨1, 1, "dh", "t1", "n", "ua", "ip", "loc", "US", true, 1000, 10⟩,
         ⟨2, 1, "dh", "t2", "n", "ua", "ip", "loc", "US", true, 1000, 20⟩,
         ⟨3, 1, "dh", "t3", "n", "ua", "ip", "loc", "US", true, 1000, 30⟩,
         ⟨4, 1, "dh", "t4", "n", "ua", "ip", "loc", "US", true, 1000, 40⟩,
         ⟨5, 1, "dh", "t5", "n", "ua", "ip", "loc", "US", true, 1000, 50⟩]
        ⟨6, 1, "dh", "t6", "n", "ua", "ip", "loc", "US", true, 1000, 100⟩
        100, e.id = m.id → e.is_active = false) :=
  device_cap_eviction
    [⟨1, 1, "dh", "t1", "n", "ua", "ip", "loc", "US", true, 1000, 10⟩,
     ⟨2, 1, "dh", "t2", "n", "ua", "ip", "loc", "US", true, 1000, 20⟩,
     ⟨3, 1, "dh", "t3", "n", "ua", "ip", "loc", "US", true, 1000, 30⟩,
     ⟨4, 1, "dh", "t4", "n", "ua", "ip", "loc", "US", true, 1000, 40⟩,
     ⟨5, 1, "dh", "t5", "n", "ua", "ip", "loc", "US", true, 1000, 50⟩]
    ⟨6, 1, "dh", "t6", "n", "ua", "ip", "loc", "US", true, 1000, 100⟩ 1 100
    (by decide) (by decide) (by decide) rfl rfl (by decide)

end Spendlyzer
